import Mathlib

/-!
Verification development for the notification scheduling and delivery
subsystem of the W.I.L.L personal-assistant backend
(`will/userspace/notifications.py`): the `Notification` value object and
the `NotificationHandler` registry with its background delivery loop.

The embedding is a shallow one: Python objects become Lean structures,
the dynamically-typed constructor arguments and fields that matter to the
claims become a small universe `PyVal` of Python runtime values with
Python truthiness, the live notification dict becomes an insertion-ordered
association list with Python `dict.update` / `del` semantics, and the
durable store becomes a list of rows.  Fallible operations (attribute and
item access on non-record values, the external mail relay, storage
operations) are made explicit.

`will/tools.py` and `will/schema.py` are part of the repository but are
not available here; the definitions taken from them (`ascii_encode`,
the `NotificationStore` row schema, the session contract of the durable
store) are modelled from the specification and marked as such in their
doc comments.  Everything else is translated directly from
`will/userspace/notifications.py`.
-/

/-- Modelled from the spec: the read-only owning-user record returned by the
owning-user lookup, exposing at least `username`, `first_name`, `last_name`
and a settings map containing `email` (spec section 6).  The settings map is
represented by its one specified entry. -/
structure UserData where
  username : String
  first_name : String
  last_name : String
  email : String
deriving Repr, DecidableEq

/-- A universe of the Python runtime values that flow through the
dynamically-typed constructor arguments and fields of `Notification`:
`None`, strings, lists of strings (the token list the summary path can
produce), `datetime` objects (as timestamps), `uuid1` tokens, and
owning-user records. -/
inductive PyVal where
  | vnone
  | vstr (s : String)
  | vlist (l : List String)
  | vtime (t : Nat)
  | vuuid (n : Nat)
  | vuser (u : UserData)
deriving Repr, DecidableEq

/-- Python truthiness on `PyVal`: `None`, the empty string and the empty
list are falsy; datetimes, uuids and user records are truthy. -/
def PyVal.truthy : PyVal → Bool
  | .vnone => false
  | .vstr s => !s.isEmpty
  | .vlist l => !l.isEmpty
  | .vtime _ => true
  | .vuuid _ => true
  | .vuser _ => true

/-- Python item access `value["username"]`: succeeds exactly on user
records (the mapping-style read the loop and `send` perform on
`user_data`); on any other value it raises, as `"abc"["username"]` does. -/
def PyVal.getUsername : PyVal → Except String String
  | .vuser u => .ok u.username
  | _ => .error "TypeError: value is not subscriptable by string key"

/-- Python attribute access `value.username` (the attribute-style read
`notify` performs on `user_data`): succeeds exactly on user records. -/
def PyVal.attrUsername : PyVal → Except String String
  | .vuser u => .ok u.username
  | _ => .error "AttributeError: value has no attribute username"

/-- Modelled from the spec: `tools.ascii_encode` (in `will/tools.py`, not
available under `src/`).  Per the spec, text fields are "normalized to a
safe transport encoding" / "decoded into ascii for maximum compatibility";
the model keeps exactly the ASCII characters of the string. -/
def asciiEncode (s : String) : String :=
  String.mk (s.data.filter (fun c => c.toNat < 128))

/-- Modelled from the spec: the behaviour of `tools.ascii_encode` on the
values the `summary` property actually passes it.  The spec defines the
normalization on text only; the summary path can also pass the token list
`message_words[0:4]`, on which the model normalizes elementwise so that
the non-string list shape is preserved rather than inventing a crash. -/
def asciiEncodeVal : PyVal → PyVal
  | .vstr s => .vstr (asciiEncode s)
  | .vlist l => .vlist (l.map asciiEncode)
  | v => v

/-- The state of a `Notification` object after `__init__`
(`notifications.py` lines 22-51).  Field order and names follow the
assignments in the constructor; `msummary` is the Python attribute
`_summary`, and `db` is kept (although unused by the handler) because the
constructor takes it positionally between `scope` and `user_data`. -/
structure Notification where
  title : String
  message : String
  scope : String
  db : PyVal
  msummary : PyVal
  created : PyVal
  uid : PyVal
  trigger_time : Int
  user_data : PyVal
deriving Repr, DecidableEq

/-- `Notification.__init__(message, title, trigger_time, scope, db,
user_data, summary=None, uid=None, created=None)`.  `now` is the reading
`datetime.datetime.now()` would give and `freshUuid` the token
`uuid.uuid1()` would give; the `if created:` / `if uid:` guards use Python
truthiness. -/
def Notification.init (message title : String) (trigger_time : Int)
    (scope : String) (db user_data summary uid created : PyVal)
    (now freshUuid : Nat) : Notification :=
  { title := asciiEncode ("W.I.L.L - " ++ title)
    message := asciiEncode message
    scope := scope
    db := db
    msummary := summary
    created := if created.truthy then created else .vtime now
    uid := if uid.truthy then uid else .vuuid freshUuid
    trigger_time := trigger_time
    user_data := user_data }

/-- The `time_reached` property: true when the clock reading `now` has
reached or passed `trigger_time`. -/
def Notification.time_reached (n : Notification) (now : Int) : Bool :=
  now ≥ n.trigger_time

/-- The guard `if " " in self.message`: substring containment of the
single space, i.e. whether the message has a space character. -/
def containsSpace (s : String) : Bool :=
  s.data.any (fun c => c = ' ')

/-- Python `message.split(" ")`, character by character: cut at every
single space (adjacent spaces produce empty pieces, as in Python), the
accumulator holding the current piece reversed. -/
def splitSpaceAux : List Char → List Char → List String
  | [], acc => [String.mk acc.reverse]
  | c :: cs, acc =>
      if c = ' ' then String.mk acc.reverse :: splitSpaceAux cs []
      else splitSpaceAux cs (c :: acc)

/-- Python `message.split(" ")`. -/
def splitSpace (s : String) : List String :=
  splitSpaceAux s.data []

/-- The recomputation branch of the `summary` property
(`notifications.py` lines 92-101), a pure function of `message`: if the
message contains a space it is split at spaces; with five or more words
the code stores the LIST `message_words[0:4]`, otherwise the whole
message; the stored value then passes through `tools.ascii_encode`. -/
def computeSummary (message : String) : PyVal :=
  asciiEncodeVal
    (if containsSpace message then
      (if (splitSpace message).length ≥ 5 then
        PyVal.vlist ((splitSpace message).take 4)
      else PyVal.vstr message)
    else PyVal.vstr message)

/-- One read of the `summary` property, returning the value the read
yields together with the object state after the read (the property
memoizes into `_summary`).  The recomputation branch is `computeSummary`
above. -/
def Notification.readSummary (n : Notification) : PyVal × Notification :=
  if n.msummary.truthy then (n.msummary, n)
  else (computeSummary n.message,
        { n with msummary := computeSummary n.message })

/-- The value of the `(k+1)`-th consecutive read of `summary` on an
object, threading the memoized state through the reads. -/
def Notification.readSummaryN : Notification → Nat → PyVal × Notification
  | n, 0 => n.readSummary
  | n, k + 1 => (n.readSummaryN k).2.readSummary

/-- The `email` delivery channel (`notifications.py` lines 69-83):
reads the relay key via `tools.load_key`, the recipient from
`user_data.settings["email"]` / `.first_name` / `.last_name` (attribute
access, failing on non-record values), and performs the outbound HTTP
POST, whose network or auth failure is the external outcome `relay`
(`some e` when the call raises `e`, `none` when it returns). -/
def Notification.email (n : Notification) (relay : Option String) :
    Except String Unit :=
  match n.user_data with
  | .vuser _ =>
      match relay with
      | some e => .error e
      | none => .ok ()
  | _ => .error "AttributeError: value has no attribute settings"

/-- `send()` (`notifications.py` lines 53-67): first logs with
`self.user_data["username"]` (an item access that raises on non-record
values), then dispatches through the static mapping from scope to channel,
which contains only `"email"`; an unregistered scope only logs an error
and falls through.  The email path also reads the `summary` property for
the subject; the memoization that read performs does not change the
call's success or failure and is not tracked here. -/
def Notification.send (n : Notification) (relay : Option String) :
    Except String Unit :=
  match n.user_data.getUsername with
  | .error e => .error e
  | .ok _ =>
      if n.scope = "email" then n.email relay
      else .ok ()

/-- Modelled from the spec: one persisted row of `schema.NotificationStore`
(`will/schema.py` is not available under `src/`).  Spec section 6 gives the
schema as "notification rows with columns (uid, message, title,
trigger_time, scope, created, summary, user_id)" with plain `insert` and
`delete-by-id` operations and no further constraints.  `uid`, `created`
and `summary` keep the runtime values the handler stores in them. -/
structure NotificationRow where
  uid : PyVal
  message : String
  title : String
  trigger_time : Int
  scope : String
  created : PyVal
  summary : PyVal
  user_id : String
deriving Repr, DecidableEq

/-- The live notification dict `NotificationHandler._notifications`,
as an insertion-ordered association list, together with the rows of the
durable store. -/
structure HandlerState where
  notifications : List (PyVal × Notification)
  db : List NotificationRow
deriving Repr, DecidableEq

/-- Python `dict.update` with a single key: replace in place when the key
is present (preserving insertion order), otherwise append. -/
def dictUpdate (d : List (PyVal × Notification)) (k : PyVal)
    (v : Notification) : List (PyVal × Notification) :=
  match d with
  | [] => [(k, v)]
  | p :: rest =>
      if p.1 = k then (k, v) :: rest else p :: dictUpdate rest k v

/-- Python dict lookup: the value stored at the first (hence, with unique
keys, the only) occurrence of the key. -/
def dictGet (d : List (PyVal × Notification)) (k : PyVal) :
    Option Notification :=
  (d.find? (fun p => decide (p.1 = k))).map (fun p => p.2)

/-- Python `del d[k]`: drop the entries stored at the key. -/
def dictDel (d : List (PyVal × Notification)) (k : PyVal) :
    List (PyVal × Notification) :=
  d.filter (fun p => decide (¬ p.1 = k))

/-- The `NotificationStore` row `notify` builds at `notifications.py`
lines 133-136: all payload fields of the notification, the `summary`
property value (its read is the same value the shared live object
memoizes), and `user_id` from the owning user. -/
def NotificationHandler.storeRow (n : Notification) (uname : String) :
    NotificationRow :=
  { uid := n.uid, message := n.message, title := n.title,
    trigger_time := n.trigger_time, scope := n.scope,
    created := n.created, summary := (n.readSummary).1, user_id := uname }

/-- `NotificationHandler.notify` (`notifications.py` lines 120-139).
Returns the handler state after the call and `some message` when the call
raises.  The live dict is updated first; when the notification is due more
than 300 seconds after the clock reading `now`, the `storeRow` above is
built (evaluating the `summary` property, whose memoization is visible on
the shared live object) with `user_id` from `user_data.username`
(attribute access, raising on non-record values); the row is then added,
committed and the session closed. -/
def NotificationHandler.notify (st : HandlerState) (n : Notification)
    (now : Int) : HandlerState × Option String :=
  if n.trigger_time - now > 300 then
    let live := dictUpdate st.notifications n.uid (n.readSummary).2
    match n.user_data.attrUsername with
    | .error e => ({ notifications := live, db := st.db }, some e)
    | .ok uname =>
        ({ notifications := live
           db := st.db ++ [NotificationHandler.storeRow n uname] },
         none)
  else
    ({ st with notifications := dictUpdate st.notifications n.uid n }, none)

/-- `NotificationHandler._pull_notificatons` (`notifications.py` lines
142-165) restricted to the reconstruction loop: for each persisted row the
constructor is called with the eight POSITIONAL arguments `(message, title,
trigger_time, scope, user_set, summary, uid, created_datetime)` against
the signature `(message, title, trigger_time, scope, db, user_data,
summary=None, uid=None, created=None)` — so the `db` slot receives the
row's `user_id`, the `user_data` slot the row's `summary`, the `summary`
slot the row's `uid`, the `uid` slot the row's `created` datetime, and
`created` is defaulted.  Each object is then stored in the live dict under
the ROW's uid. -/
def NotificationHandler.pullNotifications (rows : List NotificationRow)
    (live : List (PyVal × Notification)) (now freshUuid : Nat) :
    List (PyVal × Notification) :=
  match rows with
  | [] => live
  | r :: rest =>
      let not_class := Notification.init r.message r.title r.trigger_time
        r.scope (.vstr r.user_id) r.summary r.uid r.created .vnone
        now freshUuid
      NotificationHandler.pullNotifications rest
        (dictUpdate live r.uid not_class) now freshUuid

/-- The class attribute `NotificationHandler.running`, never written after
its initializer: the loop condition `while self.running` always sees
`True`. -/
def NotificationHandler.running : Bool := true

/-- The outcome of one pass of the scan in `_wait_notifications` over the
live set: either the body completed the pass, or an exception escaped the
body (which, inside the daemon thread's `while` loop, terminates the
delivery thread), in each case with the handler state at that point. -/
inductive ScanResult where
  | done (st : HandlerState)
  | exn (msg : String) (st : HandlerState)
deriving Repr, DecidableEq

/-- Whether the scan pass ended in an uncaught exception. -/
def ScanResult.isExn : ScanResult → Bool
  | .done _ => false
  | .exn _ _ => true

/-- The `for not_uid, notification in self._notifications.items()` body of
`_wait_notifications` (`notifications.py` lines 173-188), iterating the
pending items.  For a due notification the code first logs with
`notification.user_data["username"]` (item access, raising on non-record
values, OUTSIDE the try block), then attempts `send()` inside
`try/except` — any exception from delivery is caught and logged, so the
delivery outcome does not affect control flow and is not a parameter —
then deletes the entry from the live dict, and then evaluates
`self.graph.session()`.  `NotificationHandler` never defines an attribute
`graph` (its constructor sets only `db`), so this line raises
`AttributeError` unconditionally, outside the try block; the later
`RuntimeError` a `del` during dict iteration would cause is therefore
never reached. -/
def NotificationHandler.scanItems (pending : List (PyVal × Notification))
    (st : HandlerState) (now : Int) : ScanResult :=
  match pending with
  | [] => .done st
  | (not_uid, n) :: rest =>
      if n.time_reached now then
        match n.user_data.getUsername with
        | .error e => .exn e st
        | .ok _ =>
            let st1 : HandlerState :=
              { st with notifications := dictDel st.notifications not_uid }
            .exn "AttributeError: NotificationHandler has no attribute graph"
              st1
      else NotificationHandler.scanItems rest st now

/-- One iteration of the loop body of `_wait_notifications` when the live
set is non-empty: scan the items of the live dict. -/
def NotificationHandler.waitIteration (st : HandlerState) (now : Int) :
    ScanResult :=
  NotificationHandler.scanItems st.notifications st now

/-- The durable-store session operations the handler performs, as trace
events.  Modelled from the spec: the store contract (spec section 6) is
sessions exposing query-all, insert (`add`), `commit` and `close`. -/
inductive DbOp where
  | openSession
  | add (r : NotificationRow)
  | commit
  | queryAll
  | closeSession
deriving Repr, DecidableEq

/-- Runs a straight-line sequence of session operations under an
environment `fails` telling which operations raise: each operation is
attempted in order and recorded; the first raising operation ends the
run (the exception propagates, there being no `try/finally` or context
manager around these calls in the source). -/
def runOps (fails : DbOp → Bool) : List DbOp → List DbOp
  | [] => []
  | op :: rest => if fails op then [op] else op :: runOps fails rest

/-- The session operations of the persistence path of `notify`
(`notifications.py` lines 132-139): open the session, add the row, commit,
close. -/
def notifySessionOps (r : NotificationRow) : List DbOp :=
  [.openSession, .add r, .commit, .closeSession]

/-- The session operations of `_pull_notificatons` (`notifications.py`
lines 146-165): open the session, query all rows (the reconstruction loop
in between is pure), close. -/
def pullSessionOps : List DbOp :=
  [.openSession, .queryAll, .closeSession]

/-! ### Concrete instances used by the closed theorems and witnesses -/

/-- A concrete owning-user record. -/
def uAlice : UserData :=
  { username := "alice", first_name := "Ada", last_name := "Lovelace",
    email := "ada@example.com" }

/-- A concrete persisted row, as `notify` would have written it for a
notification titled `"Orig"` (so its stored title already carries the
`"W.I.L.L - "` transmission marker). -/
def rowC1 : NotificationRow :=
  { uid := .vstr "u-1", message := "reload msg", title := "W.I.L.L - Orig",
    trigger_time := 100, scope := "email", created := .vtime 42,
    summary := .vstr "a summary", user_id := "alice" }

/-- The live set produced by the startup load of the single row `rowC1`,
with clock reading 1000 and fresh uuid token 7. -/
def reloadC1 : List (PyVal × Notification) :=
  NotificationHandler.pullNotifications [rowC1] [] 1000 7

/-- A concrete overdue notification (trigger time 50) with a proper
owning-user record and explicit uid. -/
def nC2 : Notification :=
  Notification.init "meeting at noon" "Standup" 50 "email" .vnone
    (.vuser uAlice) .vnone (.vstr "uid-c2") .vnone 10 4

/-- The persisted row corresponding to `nC2`. -/
def rowC2 : NotificationRow :=
  { uid := .vstr "uid-c2", message := nC2.message, title := nC2.title,
    trigger_time := 50, scope := "email", created := nC2.created,
    summary := .vstr "meeting at noon", user_id := "alice" }

/-- A handler state holding `nC2` in both the live set and the store. -/
def stC2 : HandlerState :=
  { notifications := [(.vstr "uid-c2", nC2)], db := [rowC2] }

/-- The spec section 8 scenario notification: a 7-token message, a proper
user record, due at 400. -/
def nC3 : Notification :=
  Notification.init "Hello world, this is a test message" "Reminder" 400
    "email" .vnone (.vuser uAlice) .vnone .vnone .vnone 10 3

/-- A concrete notification due in the future, used by the C4 witness. -/
def nC4 : Notification :=
  Notification.init "pay rent tomorrow" "Rent" 1000 "email" .vnone
    (.vuser uAlice) .vnone (.vstr "uid-c4") .vnone 10 5

/-- A concrete notification with the unregistered scope `"sms"`. -/
def nSms : Notification :=
  Notification.init "ping" "Ping" 900 "sms" .vnone (.vuser uAlice) .vnone
    (.vstr "uid-sms") .vnone 10 6

/-- A second concrete overdue notification, for the loop-termination
claim. -/
def nC6 : Notification :=
  Notification.init "water the plants" "Plants" 200 "email" .vnone
    (.vuser uAlice) .vnone (.vstr "uid-c6") .vnone 10 8

/-- A handler state holding `nC6` live, with an empty store (its trigger
was within 300 seconds, so `notify` persisted nothing). -/
def stC6 : HandlerState :=
  { notifications := [(.vstr "uid-c6", nC6)], db := [] }

/-- The empty handler state. -/
def stEmpty : HandlerState := { notifications := [], db := [] }

/-- A concrete row for the session-lifecycle claim. -/
def rowC7 : NotificationRow :=
  { uid := .vstr "u-7", message := "call the bank", title := "W.I.L.L - Bank",
    trigger_time := 9000, scope := "email", created := .vtime 77,
    summary := .vstr "call the bank", user_id := "alice" }

/-- A storage-failure environment in which exactly the `commit` call
raises. -/
def commitFails : DbOp → Bool := fun op => decide (op = DbOp.commit)

/-- A storage environment in which every operation succeeds. -/
def noDbFailure : DbOp → Bool := fun _ => false

/-- A concrete notification already keyed in the live set, for the
duplicate-uid claim: same uid as `nC4`, different payload. -/
def nOldC9 : Notification :=
  Notification.init "old payload" "Old" 700 "email" .vnone (.vuser uAlice)
    .vnone (.vstr "uid-c4") .vnone 2 9

/-- A handler state in which the uid of `nC4` is already live. -/
def stC9 : HandlerState :=
  { notifications := [(.vstr "uid-c4", nOldC9)], db := [] }

/-- The row `notify` writes for the original notification behind `rowC1`:
reconstructing from it and persisting again is the round trip the title
claim is about. -/
def origC10 : Notification :=
  Notification.init "round trip body" "Orig" 5000 "email" .vnone
    (.vuser uAlice) .vnone (.vstr "u-10") .vnone 10 11

/-- The row `notify` writes for `origC10` (title field taken from the
constructed object, as lines 133-135 do). -/
def rowC10 : NotificationRow :=
  { uid := .vstr "u-10", message := origC10.message, title := origC10.title,
    trigger_time := 5000, scope := "email", created := origC10.created,
    summary := .vstr "round trip body", user_id := "alice" }

/-! ### Helper lemmas -/

/-- Looking up a key just written by `dict.update` yields the written
value. -/
theorem dictGet_dictUpdate (d : List (PyVal × Notification)) (k : PyVal)
    (v : Notification) : dictGet (dictUpdate d k v) k = some v := by
  induction d with
  | nil => simp [dictUpdate, dictGet]
  | cons p rest ih =>
      by_cases h : p.1 = k
      · simp [dictUpdate, dictGet, h]
      · simpa [dictUpdate, dictGet, List.find?, h] using ih

/-- Reading `summary` again on the post-read state reproduces the first
read exactly: the same value and the same state. -/
theorem readSummary_read_fixed (n : Notification) :
    ((n.readSummary).2).readSummary = n.readSummary := by
  by_cases h : n.msummary.truthy
  · simp [Notification.readSummary, h]
  · by_cases h2 : (computeSummary n.message).truthy
    · simp [Notification.readSummary, h, h2]
    · simp [Notification.readSummary, h, h2]

/-- The memoizing read changes no field of the notification other than
`_summary`. -/
theorem readSummary_preserves_fields (n : Notification) :
    ((n.readSummary).2).uid = n.uid ∧
    ((n.readSummary).2).message = n.message ∧
    ((n.readSummary).2).title = n.title ∧
    ((n.readSummary).2).scope = n.scope ∧
    ((n.readSummary).2).trigger_time = n.trigger_time ∧
    ((n.readSummary).2).user_data = n.user_data ∧
    ((n.readSummary).2).created = n.created := by
  by_cases h : n.msummary.truthy <;> simp [Notification.readSummary, h]

/-- `ascii_encode` distributes over the `"W.I.L.L - "` concatenation, the
marker being pure ASCII. -/
theorem asciiEncode_append_will (t : String) :
    asciiEncode ("W.I.L.L - " ++ t) = "W.I.L.L - " ++ asciiEncode t := by
  apply String.ext
  show (("W.I.L.L - " ++ t).data.filter fun c => decide (c.toNat < 128)) = _
  rw [String.data_append, List.filter_append, String.data_append]
  congr 1

/-! ### Claim theorems -/

/-- Claim C1: the claim states that the startup load reconstructs each
`Notification` carrying forward the row's uid, creation timestamp and
summary into the corresponding fields.  The code calls the constructor
with eight positional arguments against a signature whose fifth and sixth
parameters are `db` and `user_data`, so every later argument lands two
slots early: on the concrete row `rowC1` the reconstructed object holds
the row's summary in `user_data`, the row's uid in `_summary`, the row's
created datetime in `uid`, and a fresh `now` in `created` — none of the
three claimed fields is carried forward. -/
theorem c1_reload_misassigns_fields :
    reloadC1 =
      [(PyVal.vstr "u-1",
        { title := "W.I.L.L - W.I.L.L - Orig", message := "reload msg",
          scope := "email", db := PyVal.vstr "alice",
          msummary := PyVal.vstr "u-1", created := PyVal.vtime 1000,
          uid := PyVal.vtime 42, trigger_time := 100,
          user_data := PyVal.vstr "a summary" })] ∧
    PyVal.vtime 42 ≠ rowC1.uid ∧
    PyVal.vtime 1000 ≠ rowC1.created ∧
    PyVal.vstr "u-1" ≠ rowC1.summary := by
  decide

/-- Claim C2: the claim states that a due entry is removed from both the
live set and durable storage with any delivery exception logged, not
propagated.  On the concrete state `stC2` (one due entry, present in both)
the loop body deletes the live entry but then raises `AttributeError` at
`self.graph.session()` — an attribute the handler never defines — outside
the `try` block, so the row is still in the store and the exception
escapes the loop body. -/
theorem c2_due_entry_db_row_not_removed :
    NotificationHandler.waitIteration stC2 100 =
      ScanResult.exn
        "AttributeError: NotificationHandler has no attribute graph"
        { notifications := [], db := [rowC2] } ∧
    rowC2.uid = nC2.uid := by
  decide

/-- Claim C3: the claim states that for a message of five or more
whitespace-separated tokens the summary is the first four tokens joined
as they appear in the message, a single string.  On the spec's own
scenario message the code stores the slice `message_words[0:4]` itself, so
the summary read yields the four-token LIST, not the joined string. -/
theorem c3_summary_is_token_list :
    (nC3.readSummary).1 = PyVal.vlist ["Hello", "world,", "this", "is"] ∧
    (nC3.readSummary).1 ≠ PyVal.vstr "Hello world, this is" := by
  decide

/-- Claim C6: the claim states that while the running flag is true no
iteration of the loop body raises an unhandled exception that terminates
the delivery thread.  With the flag true (it is never written), the body
run on the concrete state `stC6` holding one due entry ends in an
uncaught exception, which terminates the delivery thread. -/
theorem c6_loop_body_raises_and_kills_thread :
    NotificationHandler.running = true ∧
    (NotificationHandler.waitIteration stC6 500).isExn = true := by
  decide

/-- Claim C8: every read of `summary` after the first returns the same
value as the first read — indeed the same value-and-state pair — across
any number of repeated reads. -/
theorem c8_summary_reads_stable (n : Notification) (k : Nat) :
    n.readSummaryN k = n.readSummary := by
  induction k with
  | zero => rfl
  | succ k ih =>
      show ((n.readSummaryN k).2).readSummary = n.readSummary
      rw [ih]
      exact readSummary_read_fixed n

/-- Claim C4: for a notification with an owning-user record, `notify`
raises nothing, the live set afterwards stores THE PASSED NOTIFICATION at
its uid (identical in every field; only its `_summary` may have been
memoized by the persistence path's `summary` read on the shared object),
and the store gains exactly one appended row when the trigger is more
than 300 seconds ahead of the clock, and is unchanged otherwise. -/
theorem c4_notify_live_and_persistence_threshold (st : HandlerState)
    (n : Notification) (now : Int) (u : UserData)
    (hu : n.user_data = PyVal.vuser u) :
    (NotificationHandler.notify st n now).2 = none ∧
    (∃ m, dictGet (NotificationHandler.notify st n now).1.notifications
            n.uid = some m ∧
       m.uid = n.uid ∧ m.message = n.message ∧ m.title = n.title ∧
       m.scope = n.scope ∧ m.trigger_time = n.trigger_time ∧
       m.user_data = n.user_data ∧ m.created = n.created ∧ m.db = n.db ∧
       (m = n ∨ m = (n.readSummary).2)) ∧
    (if n.trigger_time - now > 300
     then (NotificationHandler.notify st n now).1.db =
            st.db ++ [NotificationHandler.storeRow n u.username]
     else (NotificationHandler.notify st n now).1.db = st.db) := by
  by_cases hc : n.trigger_time - now > 300
  · obtain ⟨p1, p2, p3, p4, p5, p6, p7⟩ := readSummary_preserves_fields n
    have pdb : ((n.readSummary).2).db = n.db := by
      by_cases h : n.msummary.truthy <;> simp [Notification.readSummary, h]
    refine ⟨by simp [NotificationHandler.notify, hc, hu, PyVal.attrUsername],
      ⟨(n.readSummary).2,
        by simp [NotificationHandler.notify, hc, hu, PyVal.attrUsername,
             dictGet_dictUpdate],
        p1, p2, p3, p4, p5, p6, p7, pdb, Or.inr rfl⟩,
      by simp [NotificationHandler.notify, hc, hu, PyVal.attrUsername]⟩
  · exact ⟨by simp [NotificationHandler.notify, hc],
      ⟨n, by simp [NotificationHandler.notify, hc, dictGet_dictUpdate],
        rfl, rfl, rfl, rfl, rfl, rfl, rfl, rfl, Or.inl rfl⟩,
      by simp [NotificationHandler.notify, hc]⟩

/-- Witness for C4: the hypotheses hold and the conclusion evaluates on
the concrete future notification `nC4` against the empty state. -/
theorem c4_witness :
    nC4.user_data = PyVal.vuser uAlice ∧
    ((NotificationHandler.notify stEmpty nC4 10).2 = none ∧
     (∃ m, dictGet (NotificationHandler.notify stEmpty nC4 10).1.notifications
             nC4.uid = some m ∧
        m.uid = nC4.uid ∧ m.message = nC4.message ∧ m.title = nC4.title ∧
        m.scope = nC4.scope ∧ m.trigger_time = nC4.trigger_time ∧
        m.user_data = nC4.user_data ∧ m.created = nC4.created ∧
        m.db = nC4.db ∧ (m = nC4 ∨ m = (nC4.readSummary).2)) ∧
     (if nC4.trigger_time - 10 > 300
      then (NotificationHandler.notify stEmpty nC4 10).1.db =
             stEmpty.db ++ [NotificationHandler.storeRow nC4 uAlice.username]
      else (NotificationHandler.notify stEmpty nC4 10).1.db = stEmpty.db)) :=
  ⟨rfl, c4_notify_live_and_persistence_threshold stEmpty nC4 10 uAlice rfl⟩

/-- Claim C5: for a notification with an owning-user record whose scope
has no registered delivery channel, `send()` only logs an error and
returns normally, whatever the mail relay would have done. -/
theorem c5_unknown_scope_send_noop (n : Notification) (u : UserData)
    (relay : Option String) (hu : n.user_data = PyVal.vuser u)
    (hs : n.scope ≠ "email") : n.send relay = Except.ok () := by
  simp [Notification.send, hu, PyVal.getUsername, hs]

/-- Witness for C5: the hypotheses hold and `send` is a no-op on the
concrete `"sms"`-scoped notification. -/
theorem c5_witness :
    nSms.user_data = PyVal.vuser uAlice ∧ nSms.scope ≠ "email" ∧
    nSms.send none = Except.ok () :=
  ⟨rfl, by decide, c5_unknown_scope_send_noop nSms uAlice none rfl (by decide)⟩

/-- Counterexample to claim C7 as stated: when the `commit` of the
persistence path of `notify` raises, the exception propagates (there is
no `try/finally` in the source) and `session.close()` is never
executed. -/
theorem c7_commit_failure_skips_close :
    DbOp.closeSession ∉ runOps commitFails (notifySessionOps rowC7) := by
  decide

/-- Claim C7 as amended: the handler's sessions are closed on the success
path — when the intermediate operations (`add` and `commit` in `notify`,
the query in the startup load) do not raise, `close` is invoked (even a
raising `close` is itself attempted); when an intermediate operation
raises, the session is not closed. -/
theorem c7_sessions_closed_when_ops_succeed (r : NotificationRow)
    (fails : DbOp → Bool) (h1 : fails DbOp.openSession = false)
    (h2 : fails (DbOp.add r) = false) (h3 : fails DbOp.commit = false)
    (h4 : fails DbOp.queryAll = false) :
    DbOp.closeSession ∈ runOps fails (notifySessionOps r) ∧
    DbOp.closeSession ∈ runOps fails pullSessionOps := by
  by_cases h5 : fails DbOp.closeSession <;>
    simp [runOps, notifySessionOps, pullSessionOps, h1, h2, h3, h4, h5]

/-- Witness for the amended C7: with no storage failure every session
trace of the handler contains its `close`. -/
theorem c7_witness :
    noDbFailure DbOp.openSession = false ∧
    noDbFailure (DbOp.add rowC7) = false ∧
    noDbFailure DbOp.commit = false ∧
    noDbFailure DbOp.queryAll = false ∧
    (DbOp.closeSession ∈ runOps noDbFailure (notifySessionOps rowC7) ∧
     DbOp.closeSession ∈ runOps noDbFailure pullSessionOps) :=
  ⟨rfl, rfl, rfl, rfl,
   c7_sessions_closed_when_ops_succeed rowC7 noDbFailure rfl rfl rfl rfl⟩

/-- Claim C9: when the uid of the notification passed to `notify` already
keys a live entry, the call reports no error, the live entry at that uid
afterwards is the new notification (last write wins; only its memoizable
`_summary` can differ from the argument), and when additionally due in
more than 300 seconds a further row carrying that same uid is appended to
the store. -/
theorem c9_duplicate_uid_overwrites (st : HandlerState)
    (n old : Notification) (now : Int) (u : UserData)
    (hold : dictGet st.notifications n.uid = some old)
    (hu : n.user_data = PyVal.vuser u) :
    (NotificationHandler.notify st n now).2 = none ∧
    (∃ m, dictGet (NotificationHandler.notify st n now).1.notifications
            n.uid = some m ∧
       m.uid = n.uid ∧ m.message = n.message ∧ m.title = n.title ∧
       m.scope = n.scope ∧ m.trigger_time = n.trigger_time ∧
       m.user_data = n.user_data ∧ m.created = n.created) ∧
    (n.trigger_time - now > 300 →
       (NotificationHandler.notify st n now).1.db =
         st.db ++ [NotificationHandler.storeRow n u.username] ∧
       (NotificationHandler.storeRow n u.username).uid = n.uid) := by
  by_cases hc : n.trigger_time - now > 300
  · obtain ⟨p1, p2, p3, p4, p5, p6, p7⟩ := readSummary_preserves_fields n
    refine ⟨by simp [NotificationHandler.notify, hc, hu, PyVal.attrUsername],
      ⟨(n.readSummary).2,
        by simp [NotificationHandler.notify, hc, hu, PyVal.attrUsername,
             dictGet_dictUpdate],
        p1, p2, p3, p4, p5, p6, p7⟩,
      fun _ => ⟨by simp [NotificationHandler.notify, hc, hu,
                     PyVal.attrUsername], rfl⟩⟩
  · exact ⟨by simp [NotificationHandler.notify, hc],
      ⟨n, by simp [NotificationHandler.notify, hc, dictGet_dictUpdate],
        rfl, rfl, rfl, rfl, rfl, rfl, rfl⟩,
      fun h => absurd h hc⟩

/-- Witness for C9: `stC9` already holds an entry at the uid of `nC4`;
`notify` overwrites it and appends a row with that uid. -/
theorem c9_witness :
    dictGet stC9.notifications nC4.uid = some nOldC9 ∧
    nC4.user_data = PyVal.vuser uAlice ∧
    ((NotificationHandler.notify stC9 nC4 10).2 = none ∧
     (∃ m, dictGet (NotificationHandler.notify stC9 nC4 10).1.notifications
             nC4.uid = some m ∧
        m.uid = nC4.uid ∧ m.message = nC4.message ∧ m.title = nC4.title ∧
        m.scope = nC4.scope ∧ m.trigger_time = nC4.trigger_time ∧
        m.user_data = nC4.user_data ∧ m.created = nC4.created) ∧
     (nC4.trigger_time - 10 > 300 →
        (NotificationHandler.notify stC9 nC4 10).1.db =
          stC9.db ++ [NotificationHandler.storeRow nC4 uAlice.username] ∧
        (NotificationHandler.storeRow nC4 uAlice.username).uid = nC4.uid)) :=
  ⟨by decide, rfl,
   c9_duplicate_uid_overwrites stC9 nC4 nOldC9 10 uAlice (by decide) rfl⟩

/-- Claim C10: every constructed notification's title is the
ascii-encoding of the argument title with `"W.I.L.L - "` prepended, so it
begins with that marker; a startup reload passes the stored (already
marked) title back through the constructor, so the reloaded object's
title carries the marker twice, and persist-then-reload does not
round-trip the title, as the concrete `origC10` round trip shows. -/
theorem c10_title_marker_applied_twice_on_reload :
    (∀ message title trigger_time scope db user_data summary uid created
        now freshUuid,
       ∃ rest,
         (Notification.init message title trigger_time scope db user_data
            summary uid created now freshUuid).title =
           "W.I.L.L - " ++ rest) ∧
    (∀ r : NotificationRow, ∀ now freshUuid : Nat,
       (dictGet (NotificationHandler.pullNotifications [r] [] now freshUuid)
           r.uid).map Notification.title =
         some (asciiEncode ("W.I.L.L - " ++ r.title))) ∧
    ((dictGet (NotificationHandler.pullNotifications [rowC10] [] 20 12)
        rowC10.uid).map Notification.title =
      some "W.I.L.L - W.I.L.L - Orig" ∧
     origC10.title = "W.I.L.L - Orig" ∧
     ("W.I.L.L - W.I.L.L - Orig" : String) ≠ origC10.title) := by
  refine ⟨?_, ?_, by decide⟩
  · intro message title trigger_time scope db user_data summary uid created
      now freshUuid
    exact ⟨asciiEncode title, asciiEncode_append_will title⟩
  · intro r now freshUuid
    simp [NotificationHandler.pullNotifications, dictUpdate, dictGet,
      Notification.init, List.find?]
